import Mathlib

/-!
Verification of `app.py` of the AI-Image-Classifier-Agent repository: a shallow
embedding of its image-acquisition, preprocessing and session-state logic, with
theorems checking the repository's specification against it.

Pixel data is modelled as a total function from coordinates to RGB samples;
byte strings are modelled at the level of what decoding can observe in them
(a decodable bitmap together with its EXIF orientation tag, or undecodable
garbage); HTTP never happens inside the embedded functions, so a fetch takes
the outcome of `requests.get` as an explicit argument.
-/

namespace AIC

/-- An RGB pixel sample (one byte per channel in the real program). -/
structure RGB where
  r : Nat
  g : Nat
  b : Nat
deriving DecidableEq

/-- The PIL image modes that can reach this program (decoded uploads and
URL bodies, before or after `convert("RGB")`). -/
inductive PILMode
  | RGB
  | RGBA
  | P
  | L
deriving DecidableEq

/-- The EXIF orientation transforms `ImageOps.exif_transpose` can apply
(orientation tag values 2-8; tag 1 / absent tag is `none` in `Img`). -/
inductive ExifTag
  | flipLeftRight
  | rotate180
  | flipTopBottom
  | transposeTag
  | rotate270
  | transverse
  | rotate90
deriving DecidableEq

/-- An in-memory PIL image: extents, mode, the EXIF orientation tag carried in
its metadata (if any), and its pixel data viewed as RGB samples. -/
structure Img where
  width : Nat
  height : Nat
  mode : PILMode
  exifOrientation : Option ExifTag
  pix : Nat → Nat → RGB

theorem Img.ext {a b : Img} (hw : a.width = b.width) (hh : a.height = b.height)
    (hm : a.mode = b.mode) (he : a.exifOrientation = b.exifOrientation)
    (hp : a.pix = b.pix) : a = b := by
  cases a; cases b; cases hw; cases hh; cases hm; cases he; cases hp; rfl

/-- `Image.convert("RGB")`: re-expresses the pixel data in RGB and tags the
image with mode RGB. Pixels are already modelled as their RGB rendering, so
only the mode tag changes; metadata (the EXIF tag) is preserved by `convert`. -/
def convertRGB (img : Img) : Img :=
  { img with mode := .RGB }

/-- The pixel-level transform `ImageOps.exif_transpose` applies for each
orientation tag value (PIL's `Image.transpose` methods). -/
def applyExifTransform (t : ExifTag) (img : Img) : Img :=
  match t with
  | .flipLeftRight =>
      { img with pix := fun x y => img.pix (img.width - 1 - x) y }
  | .rotate180 =>
      { img with pix := fun x y => img.pix (img.width - 1 - x) (img.height - 1 - y) }
  | .flipTopBottom =>
      { img with pix := fun x y => img.pix x (img.height - 1 - y) }
  | .transposeTag =>
      { img with width := img.height, height := img.width,
                 pix := fun x y => img.pix y x }
  | .rotate270 =>
      { img with width := img.height, height := img.width,
                 pix := fun x y => img.pix y (img.height - 1 - x) }
  | .transverse =>
      { img with width := img.height, height := img.width,
                 pix := fun x y => img.pix (img.width - 1 - y) (img.height - 1 - x) }
  | .rotate90 =>
      { img with width := img.height, height := img.width,
                 pix := fun x y => img.pix (img.width - 1 - y) x }

/-- `ImageOps.exif_transpose(img)`: if the image carries an EXIF orientation
tag, apply the corresponding transform and strip the tag; otherwise return the
image unchanged. -/
def exif_transpose (img : Img) : Img :=
  match img.exifOrientation with
  | none => img
  | some t => { applyExifTransform t img with exifOrientation := none }

/-- A byte string, modelled at the level of what image decoding observes in
it: either it decodes to a bitmap (carrying an optional EXIF orientation tag
in its metadata), or `Image.open` fails on it. -/
inductive Bytes
  | encodedImage (img : Img)
  | undecodable

/-- `Image.open(...)`: decode a byte stream, raising (`Except.error`) when the
bytes are not a valid image. -/
def openImage (b : Bytes) : Except String Img :=
  match b with
  | .encodedImage img => .ok img
  | .undecodable => .error "cannot identify image file"

/-- `exif_safe_open` (app.py line 14): open, convert to RGB, apply EXIF
orientation; a decoding failure propagates as the raised exception. -/
def exif_safe_open (b : Bytes) : Except String Img :=
  match openImage b with
  | .error e => .error e
  | .ok img => .ok (exif_transpose (convertRGB img))

/-- `img.save(buf, format="PNG")` + `buf.getvalue()`: a lossless encoding of
the bitmap. No EXIF metadata is written (none is passed to `save`), so the
encoded bytes carry no orientation tag. -/
def encodePNG (img : Img) : Bytes :=
  .encodedImage { img with exifOrientation := none }

/-- `img.crop((left, top, right, bottom))`: the sub-image of extents
`(right-left, bottom-top)` whose pixel `(x, y)` is the source pixel
`(left+x, top+y)`; mode and metadata are preserved. -/
def crop (img : Img) (left top right bottom : Nat) : Img :=
  { width := right - left
    height := bottom - top
    mode := img.mode
    exifOrientation := img.exifOrientation
    pix := fun x y => img.pix (left + x) (top + y) }

/-- `center_crop_square` (app.py line 19). -/
def center_crop_square (img : Img) : Img :=
  let w := img.width
  let h := img.height
  let side := min w h
  let left := (w - side) / 2
  let top := (h - side) / 2
  crop img left top (left + side) (top + side)

/-- A resampling kernel: from the source image, the target extents and a
target coordinate, the interpolated pixel. `Image.resize` with
`Image.Resampling.LANCZOS` uses a floating-point windowed-sinc kernel; every
claim proved here depends only on the output extents, so the kernel is kept
as an explicit parameter rather than fixed to one interpolation formula. -/
def ResampleKernel : Type :=
  Img → Nat → Nat → Nat → Nat → RGB

/-- `img.resize(size, kernel)`: an image of exactly the requested extents
(smaller sources are upscaled, never rejected), with resampled pixel data;
mode and metadata are preserved. -/
def resize (kernel : ResampleKernel) (img : Img) (size : Nat × Nat) : Img :=
  { width := size.1
    height := size.2
    mode := img.mode
    exifOrientation := img.exifOrientation
    pix := fun x y => kernel img size.1 size.2 x y }

/-- A numpy float array: a shape together with the value at each index path.
Values are modelled as exact rationals (pixel bytes are exactly representable
in float32, and the claims below do not depend on rounding). -/
structure Tensor where
  shape : List Nat
  data : List Nat → ℚ

/-- The channel values of an RGB pixel, in channel order. -/
def channelValue (p : RGB) : Nat → Nat
  | 0 => p.r
  | 1 => p.g
  | 2 => p.b
  | _ => 0

/-- `np.array(img).astype(np.float32)` on an RGB PIL image: shape
`(height, width, 3)`, entry `[y, x, c]` the value of channel `c` at `(x, y)`. -/
def imageToArray (img : Img) : Tensor :=
  { shape := [img.height, img.width, 3]
    data := fun idx =>
      match idx with
      | [y, x, c] => (channelValue (img.pix x y) c : ℚ)
      | _ => 0 }

/-- MobileNetV2's `preprocess_input` (mode "tf"): elementwise `x / 127.5 - 1`,
scaling pixel values into `[-1, 1]`; the shape is unchanged. -/
def preprocess_input (t : Tensor) : Tensor :=
  { t with data := fun idx => t.data idx / (127.5 : ℚ) - 1 }

/-- `np.expand_dims(arr, axis=0)`: prepend a batch dimension of size 1. -/
def expand_dims (t : Tensor) : Tensor :=
  { shape := 1 :: t.shape
    data := fun idx =>
      match idx with
      | b :: rest => if b = 0 then t.data rest else 0
      | [] => 0 }

/-- `preprocess_image` (app.py line 26). In the source `target_size` defaults
to `(224, 224)` and `do_center_crop` to `True`. -/
def preprocess_image (kernel : ResampleKernel) (img : Img)
    (target_size : Nat × Nat) (do_center_crop : Bool) : Tensor :=
  let cropped := if do_center_crop then center_crop_square img else img
  let resized := resize kernel cropped target_size
  expand_dims (preprocess_input (imageToArray resized))

/-- State-passing reading of `preprocess_image`: the body of the source
function reads no variable outside its parameters and performs no assignment
to any outer scope, so lifting it over an arbitrary ambient state type is the
identity on that state. -/
def preprocess_image_st (σ : Type) (s : σ) (kernel : ResampleKernel) (img : Img)
    (target_size : Nat × Nat) (do_center_crop : Bool) : Tensor × σ :=
  (preprocess_image kernel img target_size do_center_crop, s)

/-- What the embedded program can observe of one `requests.get` response,
after redirects: the final status code, the `content-type` header (if any),
and the body bytes. -/
structure HttpResponse where
  status_code : Nat
  contentTypeHeader : Option String
  content : Bytes

/-- `requests.Response.raise_for_status()`: raises `HTTPError` exactly when
the status code is in 400..599 (client or server error). -/
def raise_for_status (status_code : Nat) : Except String Unit :=
  if 400 ≤ status_code ∧ status_code < 600 then .error "HTTPError" else .ok ()

/-- `r.headers.get("content-type", "")`. -/
def contentTypeOf (r : HttpResponse) : String :=
  r.contentTypeHeader.getD ""

/-- The test `"image" in ctype.lower()` on line 48 of app.py. -/
def mentionsImage (ctype : String) : Bool :=
  decide ("image".toList <:+: ctype.toLower.toList)

/-- `fetch_image_from_url` (app.py line 36), taking the outcome of
`requests.get` as an argument: a raised connection error, timeout or
redirect-loop error arrives as `.error`, and a response (of any status) as
`.ok`. The content-type test on line 48 has `pass` as its only branch body,
so its value is computed and discarded. -/
def fetch_image_from_url (request_outcome : Except String HttpResponse) :
    Except String Img :=
  match request_outcome with
  | .error e => .error e
  | .ok r =>
      match raise_for_status r.status_code with
      | .error e => .error e
      | .ok _ =>
          let ctype := contentTypeOf r
          let _ := ! mentionsImage ctype
          exif_safe_open r.content

/-- The two session-state fields of app.py (lines 71-74):
`st.session_state.img_bytes` and `st.session_state.img_source`. -/
structure SessionState where
  img_bytes : Option Bytes
  img_source : Option String

/-- Session state after the initialization on lines 71-74: both fields
set to `None`. -/
def initState : SessionState :=
  { img_bytes := none, img_source := none }

/-- The file-upload branch (app.py lines 78-83) with an uploaded file
present: `uploaded_file.read()` either raises (caught, state untouched) or
yields bytes, and then both fields are assigned. -/
def fileUploadStep (read_outcome : Except String Bytes) (s : SessionState) :
    SessionState :=
  match read_outcome with
  | .error _ => s
  | .ok bytes => { img_bytes := some bytes, img_source := some "file" }

/-- The URL-load branch (app.py lines 89-97) with the button clicked and a
nonempty URL: `fetch_image_from_url` either raises (caught, state untouched)
or yields an image, which is re-encoded to PNG and both fields assigned. -/
def urlLoadStep (fetch_outcome : Except String Img) (s : SessionState) :
    SessionState :=
  match fetch_outcome with
  | .error _ => s
  | .ok img => { img_bytes := some (encodePNG img), img_source := some "URL" }

/-- One render cycle's possible effect on the session state: a file-upload
attempt or a URL-load attempt, with any outcome (a cycle with neither is the
identity and adds no reachable state). -/
inductive LoadStep : SessionState → SessionState → Prop
  | file (read_outcome : Except String Bytes) (s : SessionState) :
      LoadStep s (fileUploadStep read_outcome s)
  | url (fetch_outcome : Except String Img) (s : SessionState) :
      LoadStep s (urlLoadStep fetch_outcome s)

/-- Session states reachable from initialization by render cycles. -/
inductive Reachable : SessionState → Prop
  | init : Reachable initState
  | step {s t : SessionState} : Reachable s → LoadStep s t → Reachable t

/-- The `@st.cache_data` memo on `fetch_image_from_url`: an association from
URL strings (the function's only argument) to previously returned images. -/
def FetchCache : Type :=
  List (String × Img)

/-- One call of the cached `fetch_image_from_url`: on a cache hit the stored
image is returned and no request happens; on a miss the fetch runs (the
`Bool` records that the network was used) and only a successful result is
stored (`st.cache_data` does not cache raised exceptions). -/
def cachedFetch (cache : FetchCache) (url : String)
    (net : String → Except String HttpResponse) :
    Except String Img × FetchCache × Bool :=
  match List.lookup url cache with
  | some img => (.ok img, cache, false)
  | none =>
      match fetch_image_from_url (net url) with
      | .ok img => (.ok img, (url, img) :: cache, true)
      | .error e => (.error e, cache, true)

/-- Modelled from the spec: the prediction-filtering step of the Presentation
component (spec section 4.4). Classification is not yet wired up in
src/app.py (`main` only creates the Top-K and threshold controls and says
classification "will be enabled in the next step"), so this follows the
spec's words: "take the model's full ranked list, drop entries below the
threshold, then take the first Top-K of what remains". Predictions are
(label, confidence) pairs. -/
def filter_predictions (preds : List (String × ℚ)) (threshold : ℚ)
    (topk : Nat) : List (String × ℚ) :=
  (preds.filter (fun p => threshold ≤ p.2)).take topk

/-- Ranked descending by confidence (spec: "sorted descending"). -/
def RankedDesc (preds : List (String × ℚ)) : Prop :=
  preds.Sorted (fun a b => b.2 ≤ a.2)

/-- A tiny concrete image for witnesses: 1 x 1, RGB, no EXIF tag. -/
def demoImg : Img :=
  { width := 1, height := 1, mode := .RGB, exifOrientation := none,
    pix := fun _ _ => ⟨0, 0, 0⟩ }

/-- A session state holding a previously loaded valid image. -/
def demoLoadedState : SessionState :=
  { img_bytes := some (encodePNG demoImg), img_source := some "file" }

/-- An HTTP 404 response with an undecodable body. -/
def demoResp404 : HttpResponse :=
  { status_code := 404, contentTypeHeader := none, content := .undecodable }

/-- An HTTP 304 response (not 2xx, not an error status for
`raise_for_status`) carrying a decodable body. -/
def demoResp304 : HttpResponse :=
  { status_code := 304, contentTypeHeader := none, content := .encodedImage demoImg }

/-- An HTTP 200 response carrying a decodable body. -/
def demoResp200 : HttpResponse :=
  { status_code := 200, contentTypeHeader := some "image/png",
    content := .encodedImage demoImg }

/-- A network that always answers with `demoResp200`. -/
def demoNet : String → Except String HttpResponse :=
  fun _ => .ok demoResp200

/-- The spec's end-to-end scenario 4 ranked list:
probabilities 0.6, 0.3, 0.08, 0.01, 0.01. -/
def demoPreds : List (String × ℚ) :=
  [("lion", 6/10), ("tabby", 3/10), ("tiger", 8/100),
   ("lynx", 1/100), ("leopard", 1/100)]

/-- On a response (any status), the fetch is the status check followed by the
decode of the body; the content-type header plays no part. -/
theorem fetch_ok_eq (resp : HttpResponse) :
    fetch_image_from_url (.ok resp)
      = if 400 ≤ resp.status_code ∧ resp.status_code < 600
        then .error "HTTPError" else exif_safe_open resp.content := by
  by_cases hb : 400 ≤ resp.status_code ∧ resp.status_code < 600
  · simp [fetch_image_from_url, raise_for_status, hb]
  · simp [fetch_image_from_url, raise_for_status, hb]

theorem fetch_ok_of_status (resp : HttpResponse)
    (h : ¬ (400 ≤ resp.status_code ∧ resp.status_code < 600)) :
    fetch_image_from_url (.ok resp) = exif_safe_open resp.content := by
  rw [fetch_ok_eq, if_neg h]

theorem exif_safe_open_eq {b : Bytes} {img : Img}
    (h : openImage b = .ok img) :
    exif_safe_open b = .ok (exif_transpose (convertRGB img)) := by
  simp [exif_safe_open, h]

theorem applyExifTransform_mode (t : ExifTag) (img : Img) :
    (applyExifTransform t img).mode = img.mode := by
  cases t <;> rfl

theorem exif_transpose_mode (img : Img) :
    (exif_transpose img).mode = img.mode := by
  unfold exif_transpose
  cases he : img.exifOrientation with
  | none => rfl
  | some t => exact applyExifTransform_mode t img

theorem exif_transpose_exifOrientation (img : Img) :
    (exif_transpose img).exifOrientation = none := by
  unfold exif_transpose
  cases he : img.exifOrientation with
  | none => exact he
  | some t => rfl

/-- Whatever `exif_safe_open` returns is RGB and carries no EXIF tag. -/
theorem exif_safe_open_normalized {b : Bytes} {img : Img}
    (h : exif_safe_open b = .ok img) :
    img.mode = .RGB ∧ img.exifOrientation = none := by
  cases b with
  | undecodable => simp [exif_safe_open, openImage] at h
  | encodedImage i =>
      simp only [exif_safe_open, openImage] at h
      injection h with h
      subst h
      exact ⟨exif_transpose_mode (convertRGB i),
        exif_transpose_exifOrientation (convertRGB i)⟩

/-- PNG-encoding an RGB image with no EXIF tag and re-opening it through
`exif_safe_open` returns the image unchanged. -/
theorem exif_safe_open_encodePNG {img : Img} (hm : img.mode = .RGB)
    (he : img.exifOrientation = none) :
    exif_safe_open (encodePNG img) = .ok img := by
  cases img with
  | mk w h m e p =>
      subst hm
      subst he
      rfl

/-- C1: for every decoded input image, of any original extents (smaller than
224 included), and for either value of the center-crop flag, the tensor
produced by `preprocess_image` at the default target size has shape
`(1, 224, 224, 3)`; no input size is rejected. -/
theorem preprocess_image_shape (kernel : ResampleKernel) (img : Img)
    (do_center_crop : Bool) :
    (preprocess_image kernel img (224, 224) do_center_crop).shape
      = [1, 224, 224, 3] := rfl

/-- C2: for a ranked (descending) prediction list, any threshold `T` and any
top-K `K`, the displayed list drops the entries below `T` and then takes the
first `K` of what remains; its length is `min K (count of p` at or above
`T)`, it stays sorted descending, and it holds no value below `T`. -/
theorem filter_predictions_spec (preds : List (String × ℚ)) (T : ℚ) (K : Nat)
    (hranked : RankedDesc preds) :
    filter_predictions preds T K = (preds.filter (fun p => T ≤ p.2)).take K ∧
    (filter_predictions preds T K).length
        = min K (preds.countP (fun p => T ≤ p.2)) ∧
    RankedDesc (filter_predictions preds T K) ∧
    (∀ p ∈ filter_predictions preds T K, T ≤ p.2) := by
  refine ⟨rfl, ?_, ?_, ?_⟩
  · rw [filter_predictions, List.length_take, List.countP_eq_length_filter]
  · have hs : preds.Sorted (fun a b => b.2 ≤ a.2) := hranked
    exact (hs.filter _).sublist (List.take_sublist K _)
  · intro p hp
    have h1 := List.mem_of_mem_take hp
    exact of_decide_eq_true (List.mem_filter.mp h1).2

theorem filter_predictions_spec_witness :
    RankedDesc demoPreds ∧
    (filter_predictions demoPreds (5/100) 3
        = (demoPreds.filter (fun p => (5:ℚ)/100 ≤ p.2)).take 3 ∧
      (filter_predictions demoPreds (5/100) 3).length
        = min 3 (demoPreds.countP (fun p => (5:ℚ)/100 ≤ p.2)) ∧
      RankedDesc (filter_predictions demoPreds (5/100) 3) ∧
      (∀ p ∈ filter_predictions demoPreds (5/100) 3, (5:ℚ)/100 ≤ p.2)) :=
  have hranked : RankedDesc demoPreds := by
    simp [RankedDesc, demoPreds, List.sorted_cons]
    norm_num
  ⟨hranked, filter_predictions_spec demoPreds (5/100) 3 hranked⟩

/-- C3: a failed load attempt — a raising file read, a connection error or
timeout, a 4xx/5xx response, or an undecodable body — leaves both
session-state fields exactly as they were before the attempt; a previously
loaded valid image is never cleared or overwritten by a failed load. -/
theorem failed_load_preserves_session (s : SessionState) (e : String)
    (resp : HttpResponse)
    (hfail : (400 ≤ resp.status_code ∧ resp.status_code < 600) ∨
      resp.content = .undecodable) :
    fileUploadStep (.error e) s = s ∧
    urlLoadStep (.error e) s = s ∧
    urlLoadStep (fetch_image_from_url (.error e)) s = s ∧
    urlLoadStep (fetch_image_from_url (.ok resp)) s = s := by
  refine ⟨rfl, rfl, rfl, ?_⟩
  rw [fetch_ok_eq]
  rcases hfail with hbad | hundec
  · rw [if_pos hbad]
    rfl
  · split
    · rfl
    · rw [hundec]
      rfl

/-- On a memo hit no fetch body runs at all. -/
theorem cachedFetch_hit {cache : FetchCache} {url : String} {img : Img}
    (net : String → Except String HttpResponse)
    (h : List.lookup url cache = some img) :
    cachedFetch cache url net = (.ok img, cache, false) := by
  unfold cachedFetch
  rw [h]

/-- On a memo miss with a successful fetch, the result is stored. -/
theorem cachedFetch_miss_ok {cache : FetchCache} {url : String} {img : Img}
    (net : String → Except String HttpResponse)
    (hl : List.lookup url cache = none)
    (hf : fetch_image_from_url (net url) = .ok img) :
    cachedFetch cache url net = (.ok img, (url, img) :: cache, true) := by
  unfold cachedFetch
  rw [hl, hf]

/-- On a memo miss with a failed fetch, nothing is stored. -/
theorem cachedFetch_miss_err {cache : FetchCache} {url : String} {e : String}
    (net : String → Except String HttpResponse)
    (hl : List.lookup url cache = none)
    (hf : fetch_image_from_url (net url) = .error e) :
    cachedFetch cache url net = (.error e, cache, true) := by
  unfold cachedFetch
  rw [hl, hf]

theorem failed_load_preserves_session_witness :
    ((400 ≤ demoResp404.status_code ∧ demoResp404.status_code < 600) ∨
      demoResp404.content = .undecodable) ∧
    (fileUploadStep (.error "boom") demoLoadedState = demoLoadedState ∧
      urlLoadStep (.error "boom") demoLoadedState = demoLoadedState ∧
      urlLoadStep (fetch_image_from_url (.error "boom")) demoLoadedState
        = demoLoadedState ∧
      urlLoadStep (fetch_image_from_url (.ok demoResp404)) demoLoadedState
        = demoLoadedState) :=
  ⟨Or.inl (by decide),
    failed_load_preserves_session demoLoadedState "boom" demoResp404
      (Or.inl (by decide))⟩

/-- C4: the center crop of a `W x H` image is the square of side
`min W H` whose pixel `(x, y)` is the source pixel at offset
`((W - side) / 2, (H - side) / 2)` — equal trim on both sides of the longer
axis, the offset truncated downward when the excess is odd — and cropping an
already-square image returns it unchanged. -/
theorem center_crop_square_spec (img : Img) :
    (center_crop_square img).width = min img.width img.height ∧
    (center_crop_square img).height = min img.width img.height ∧
    (∀ x y, (center_crop_square img).pix x y
      = img.pix ((img.width - min img.width img.height) / 2 + x)
                ((img.height - min img.width img.height) / 2 + y)) ∧
    (img.width = img.height → center_crop_square img = img) := by
  refine ⟨?_, ?_, fun x y => rfl, ?_⟩
  · simp [center_crop_square, crop]
  · simp [center_crop_square, crop]
  · intro hwh
    apply Img.ext
    · simp [center_crop_square, crop, hwh]
    · simp [center_crop_square, crop, hwh]
    · rfl
    · rfl
    · funext x y
      simp [center_crop_square, crop, hwh]

theorem center_crop_square_spec_witness :
    ((center_crop_square demoImg).width = min demoImg.width demoImg.height ∧
      (center_crop_square demoImg).height = min demoImg.width demoImg.height ∧
      (∀ x y, (center_crop_square demoImg).pix x y
        = demoImg.pix
            ((demoImg.width - min demoImg.width demoImg.height) / 2 + x)
            ((demoImg.height - min demoImg.width demoImg.height) / 2 + y)) ∧
      (demoImg.width = demoImg.height → center_crop_square demoImg = demoImg)) ∧
    center_crop_square demoImg = demoImg :=
  ⟨center_crop_square_spec demoImg, (center_crop_square_spec demoImg).2.2.2 rfl⟩

/-- C5 (counterexample): a final status of 304 is not in the 2xx success
range, yet the fetch sails past the status check and succeeds when the body
decodes — `raise_for_status` raises only for 400-599. -/
theorem fetch_non2xx_counterexample :
    ¬ (200 ≤ demoResp304.status_code ∧ demoResp304.status_code < 300) ∧
    fetch_image_from_url (.ok demoResp304) = .ok demoImg :=
  ⟨by decide, rfl⟩

/-- C5 (amended): the URL fetch raises at the status check exactly for final
status codes in 400..599; any other final status — every 2xx, but also 1xx
and 3xx responses that survive redirect handling — passes the check, after
which the outcome is decided solely by decoding the body. -/
theorem fetch_status_check_amended (resp : HttpResponse) :
    fetch_image_from_url (.ok resp)
      = if 400 ≤ resp.status_code ∧ resp.status_code < 600
        then .error "HTTPError" else exif_safe_open resp.content :=
  fetch_ok_eq resp

/-- C6: for a 2xx response whose body decodes, the fetch succeeds whatever
the declared content-type header is (absent or non-image included), and the
header never influences the result at all — only body decoding can fail the
fetch after the status check. -/
theorem fetch_ignores_content_type (status : Nat) (ct ct2 : Option String)
    (body : Bytes) (h2xx : 200 ≤ status ∧ status < 300)
    (hdec : ∃ img, openImage body = .ok img) :
    (∃ img, fetch_image_from_url
        (.ok { status_code := status, contentTypeHeader := ct, content := body })
        = .ok img) ∧
    fetch_image_from_url
        (.ok { status_code := status, contentTypeHeader := ct, content := body })
      = fetch_image_from_url
        (.ok { status_code := status, contentTypeHeader := ct2, content := body }) := by
  obtain ⟨img, himg⟩ := hdec
  have hnot : ¬ (400 ≤ status ∧ status < 600) := by omega
  have e1 : fetch_image_from_url
      (.ok { status_code := status, contentTypeHeader := ct, content := body })
      = exif_safe_open body := fetch_ok_of_status _ hnot
  have e2 : fetch_image_from_url
      (.ok { status_code := status, contentTypeHeader := ct2, content := body })
      = exif_safe_open body := fetch_ok_of_status _ hnot
  refine ⟨⟨exif_transpose (convertRGB img), ?_⟩, e1.trans e2.symm⟩
  rw [e1, exif_safe_open_eq himg]

theorem fetch_ignores_content_type_witness :
    (200 ≤ 200 ∧ 200 < 300) ∧
    (∃ img, openImage (.encodedImage demoImg) = .ok img) ∧
    ((∃ img, fetch_image_from_url
        (.ok { status_code := 200, contentTypeHeader := none,
               content := .encodedImage demoImg })
        = .ok img) ∧
      fetch_image_from_url
        (.ok { status_code := 200, contentTypeHeader := none,
               content := .encodedImage demoImg })
      = fetch_image_from_url
        (.ok { status_code := 200, contentTypeHeader := some "text/html",
               content := .encodedImage demoImg })) :=
  ⟨by decide, ⟨demoImg, rfl⟩,
    fetch_ignores_content_type 200 none (some "text/html")
      (.encodedImage demoImg) (by decide) ⟨demoImg, rfl⟩⟩

/-- Both session-state fields unset, or both set together with a source tag
naming one of the two load paths. -/
def ConsistentState (s : SessionState) : Prop :=
  (s.img_bytes = none ∧ s.img_source = none) ∨
  (∃ b src, s.img_bytes = some b ∧ s.img_source = some src ∧
    (src = "file" ∨ src = "URL"))

/-- C7: every reachable session state has either both fields unset or both
set consistently (bytes present together with a source tag of "file" or
"URL"), and every successful load assigns the two fields together, never
only one — there is at most one active image at a time. -/
theorem session_state_consistent (s : SessionState) (h : Reachable s) :
    ConsistentState s ∧
    (∀ (bytes : Bytes) (t : SessionState),
      fileUploadStep (.ok bytes) t
        = { img_bytes := some bytes, img_source := some "file" }) ∧
    (∀ (img : Img) (t : SessionState),
      urlLoadStep (.ok img) t
        = { img_bytes := some (encodePNG img), img_source := some "URL" }) := by
  refine ⟨?_, fun _ _ => rfl, fun _ _ => rfl⟩
  induction h with
  | init => exact Or.inl ⟨rfl, rfl⟩
  | step hr hstep ih =>
      cases hstep with
      | file read_outcome t =>
          cases read_outcome with
          | error e => exact ih
          | ok bytes => exact Or.inr ⟨bytes, "file", rfl, rfl, Or.inl rfl⟩
      | url fetch_outcome t =>
          cases fetch_outcome with
          | error e => exact ih
          | ok img => exact Or.inr ⟨encodePNG img, "URL", rfl, rfl, Or.inr rfl⟩

theorem session_state_consistent_witness :
    ConsistentState initState ∧
    (∀ (bytes : Bytes) (t : SessionState),
      fileUploadStep (.ok bytes) t
        = { img_bytes := some bytes, img_source := some "file" }) ∧
    (∀ (img : Img) (t : SessionState),
      urlLoadStep (.ok img) t
        = { img_bytes := some (encodePNG img), img_source := some "URL" }) :=
  session_state_consistent initState Reachable.init

/-- C8: once a fetch of a URL has succeeded, the next fetch of the same URL
string — against any state of the network, even one that now fails — returns
the same image from the memo, performs no network request, and leaves the
memo unchanged. -/
theorem cached_fetch_memoized (cache : FetchCache) (url : String)
    (net net2 : String → Except String HttpResponse) (img : Img)
    (hfirst : (cachedFetch cache url net).1 = .ok img) :
    cachedFetch ((cachedFetch cache url net).2.1) url net2
      = (.ok img, (cachedFetch cache url net).2.1, false) := by
  cases hl : List.lookup url cache with
  | some i =>
      rw [cachedFetch_hit net hl] at hfirst ⊢
      have hi : i = img := by simpa using hfirst
      subst hi
      exact cachedFetch_hit net2 hl
  | none =>
      cases hf : fetch_image_from_url (net url) with
      | error e =>
          rw [cachedFetch_miss_err net hl hf] at hfirst
          simp at hfirst
      | ok i =>
          rw [cachedFetch_miss_ok net hl hf] at hfirst ⊢
          have hi : i = img := by simpa using hfirst
          subst hi
          exact cachedFetch_hit net2 (by simp [List.lookup])

theorem cached_fetch_memoized_witness :
    (cachedFetch [] "https://example.com/cat.png" demoNet).1 = .ok demoImg ∧
    cachedFetch ((cachedFetch [] "https://example.com/cat.png" demoNet).2.1)
        "https://example.com/cat.png" (fun _ => .error "network down")
      = (.ok demoImg,
         (cachedFetch [] "https://example.com/cat.png" demoNet).2.1, false) :=
  ⟨rfl,
    cached_fetch_memoized [] "https://example.com/cat.png" demoNet
      (fun _ => .error "network down") demoImg rfl⟩

/-- C9: preprocessing is deterministic and stateless — run over any two
ambient states it yields the same tensor, and it returns its ambient state
untouched; the tensor depends only on the image and the flags. -/
theorem preprocess_image_stateless (σ : Type) (s1 s2 : σ)
    (kernel : ResampleKernel) (img : Img) (target_size : Nat × Nat)
    (do_center_crop : Bool) :
    (preprocess_image_st σ s1 kernel img target_size do_center_crop).1
      = (preprocess_image_st σ s2 kernel img target_size do_center_crop).1 ∧
    (preprocess_image_st σ s1 kernel img target_size do_center_crop).2 = s1 ∧
    (preprocess_image_st σ s1 kernel img target_size do_center_crop).1
      = preprocess_image kernel img target_size do_center_crop :=
  ⟨rfl, rfl, rfl⟩

/-- C10: after a successful URL load the stored session bytes are the
lossless PNG re-encoding of the fetched image, carrying no EXIF tag, and
redecoding them for display succeeds and returns the very same image — the
second EXIF-orientation pass is a no-op. -/
theorem url_load_roundtrip (request_outcome : Except String HttpResponse)
    (img : Img) (s : SessionState)
    (h : fetch_image_from_url request_outcome = .ok img) :
    (urlLoadStep (fetch_image_from_url request_outcome) s).img_bytes
        = some (encodePNG img) ∧
    (urlLoadStep (fetch_image_from_url request_outcome) s).img_source
        = some "URL" ∧
    encodePNG img = .encodedImage { img with exifOrientation := none } ∧
    exif_safe_open (encodePNG img) = .ok img := by
  have hnorm : img.mode = .RGB ∧ img.exifOrientation = none := by
    cases request_outcome with
    | error e => simp [fetch_image_from_url] at h
    | ok resp =>
        rw [fetch_ok_eq] at h
        by_cases hb : 400 ≤ resp.status_code ∧ resp.status_code < 600
        · rw [if_pos hb] at h
          simp at h
        · rw [if_neg hb] at h
          exact exif_safe_open_normalized h
  rw [h]
  exact ⟨rfl, rfl, rfl, exif_safe_open_encodePNG hnorm.1 hnorm.2⟩

theorem url_load_roundtrip_witness :
    fetch_image_from_url (.ok demoResp200) = .ok demoImg ∧
    ((urlLoadStep (fetch_image_from_url (.ok demoResp200)) initState).img_bytes
        = some (encodePNG demoImg) ∧
      (urlLoadStep (fetch_image_from_url (.ok demoResp200)) initState).img_source
        = some "URL" ∧
      encodePNG demoImg
        = .encodedImage { demoImg with exifOrientation := none } ∧
      exif_safe_open (encodePNG demoImg) = .ok demoImg) :=
  ⟨rfl, url_load_roundtrip (.ok demoResp200) demoImg initState rfl⟩

end AIC
